import Mathlib

/-!
# Verification of the Kalshi risk-neutralization bot (src/bot.py)

Shallow embedding of the bot's hedge logic and orchestration over exact
rational arithmetic (Python floats are modelled as ℚ; Python `math.floor`
is `Int.floor`).  External collaborators (Kalshi API, Supabase, Discord)
are modelled by explicit response values passed in, and the observable
behaviour of each function is a list of events.
-/

namespace KalshiBot

/-- Outcome of a call to an external service: either a returned value or a
raised exception carrying a message (Python `except Exception as e`). -/
inductive ApiResult (α : Type) where
  | ok : α → ApiResult α
  | exn : String → ApiResult α
  deriving DecidableEq, Repr

/-- The `market` payload of `kalshi_api.get_market`, as read by
`get_current_price` (src/bot.py:129-136): only `yes_bid` is used (cents). -/
structure MarketData where
  yes_bid : ℚ
  deriving DecidableEq, Repr

/-- One item of `response.market_positions` from `kalshi_api.get_positions`,
as read by `fetch_open_positions` (src/bot.py:85-112). -/
structure PortfolioItem where
  ticker : String
  avg_price : ℚ
  position : ℤ
  deriving DecidableEq, Repr

/-- The position dict built by `fetch_open_positions` (src/bot.py:106-112)
and consumed by `process_position` (src/bot.py:229-232). -/
structure Position where
  ticker : String
  entry_price : ℚ
  quantity : ℤ
  status : String
  pos_id : Option ℤ
  deriving DecidableEq, Repr

/-- Observable events: log lines, order requests sent to the exchange,
database writes, and Discord webhook posts. -/
inductive Event where
  | log : String → Event
  | orderRequest : String → ℤ → ℤ → Event
  | dbUpdate : ℤ → ℤ → Event
  | discordPost : String → Event
  deriving DecidableEq, Repr

/-- `calculate_hedge_quantity` (src/bot.py:144-155): number of contracts to
sell to recover the initial capital, clamped to `[0, quantity - 1]`.
Python `math.floor` on an exact rational is `Rat.floor`. -/
def calculate_hedge_quantity (entry_price : ℚ) (quantity : ℤ) (current_price : ℚ) : ℤ :=
  let initial_capital := entry_price * (quantity : ℚ)
  let contracts_to_sell := Rat.floor (initial_capital / current_price)
  max 0 (min contracts_to_sell (quantity - 1))

/-- `Rat.floor` is the floor of the `FloorRing` structure on `ℚ`. -/
lemma rat_floor_eq_int_floor (q : ℚ) : Rat.floor q = ⌊q⌋ := by
  rw [Rat.floor_def, Rat.floor_def']

/-- Python `int()` truncates toward zero; models `int(price * 100)`
(src/bot.py:161). -/
def int_trunc (q : ℚ) : ℤ :=
  if 0 ≤ q then Rat.floor q else -Rat.floor (-q)

/-- `MIN_INVESTMENT_TO_HEDGE` (src/bot.py:78). -/
def MIN_INVESTMENT_TO_HEDGE : ℚ := 10

/-- The cents normalisation applied inside `fetch_open_positions`
(src/bot.py:95-97): a raw `avg_price` below 1 is assumed to be dollars and
scaled to cents. -/
def price_in_cents (avg_price : ℚ) : ℚ :=
  if avg_price < 1 then avg_price * 100 else avg_price

/-- `invested_value_dollars` (src/bot.py:99). -/
def invested_value_dollars (p : PortfolioItem) : ℚ :=
  (p.position : ℚ) * price_in_cents p.avg_price / 100

/-- The position dict appended by `fetch_open_positions` (src/bot.py:106-112):
`entry_price` is the raw `avg_price`, `id` is `None` in auto-pilot mode. -/
def to_position (p : PortfolioItem) : Position :=
  ⟨p.ticker, p.avg_price, p.position, "OPEN", none⟩

/-- `fetch_open_positions` (src/bot.py:70-123).  The `except` clause at
src/bot.py:121-123 catches any portfolio-API failure, logs, and returns the
empty list. -/
def fetch_open_positions (portfolioResp : ApiResult (List PortfolioItem)) : List Position :=
  match portfolioResp with
  | ApiResult.ok items =>
      items.filterMap fun p =>
        if invested_value_dollars p ≥ MIN_INVESTMENT_TO_HEDGE then some (to_position p) else none
  | ApiResult.exn _ => []

/-- `get_current_price` (src/bot.py:125-142): `None` when the market payload
is missing (`.ok none`) or the API raises (`.exn`); otherwise `yes_bid / 100`
(cents to dollars).  Its log lines are elided. -/
def get_current_price (marketResp : ApiResult (Option MarketData)) : Option ℚ :=
  match marketResp with
  | ApiResult.ok (some m) => some (m.yes_bid / 100)
  | ApiResult.ok none => none
  | ApiResult.exn _ => none

/-- `send_discord_alert` (src/bot.py:209-225): posts to the webhook, checks
for status 204, and catches its own exceptions — it never propagates an
error. -/
def send_discord_alert (message : String) (discordResp : ApiResult ℕ) : List Event :=
  Event.discordPost message ::
    match discordResp with
    | ApiResult.ok 204 => [Event.log "Discord notification sent"]
    | ApiResult.ok _ => [Event.log "Discord notification failed"]
    | ApiResult.exn _ => [Event.log "ERROR sending Discord alert"]

/-- `execute_sell_order` (src/bot.py:157-187).  `orderResp` is the outcome of
`kalshi_api.create_order`: a returned order id, a response with no order
object, or a raised exception.  Only the exception path sends a Discord
alert (src/bot.py:184-187); the no-order path merely logs
(src/bot.py:180-182).  Emoji in the alert text are elided. -/
def execute_sell_order (ticker : String) (quantity : ℤ) (price : ℚ)
    (orderResp : ApiResult (Option String)) (discordResp : ApiResult ℕ) : Bool × List Event :=
  let price_cents := int_trunc (price * 100)
  match orderResp with
  | ApiResult.ok (some _) =>
      (true, [Event.orderRequest ticker quantity price_cents,
              Event.log "Order placed successfully"])
  | ApiResult.ok none =>
      (false, [Event.orderRequest ticker quantity price_cents,
               Event.log "Order placement failed - no order returned"])
  | ApiResult.exn e =>
      (false, Event.orderRequest ticker quantity price_cents ::
        send_discord_alert ("Order Execution Error: " ++ ticker ++ " - " ++ e) discordResp)

/-- `update_position_status` (src/bot.py:189-207): skipped without a database
id (auto-pilot mode); on a database error the write does not take effect and
a Discord alert is sent (src/bot.py:205-207). -/
def update_position_status (position_id : Option ℤ) (remaining_quantity : ℤ)
    (dbResp : ApiResult Unit) (discordResp : ApiResult ℕ) : List Event :=
  match position_id with
  | none => [Event.log "Skipping database update (auto-pilot mode)"]
  | some pid =>
      match dbResp with
      | ApiResult.ok _ =>
          [Event.dbUpdate pid remaining_quantity, Event.log "Updated position in database"]
      | ApiResult.exn e =>
          send_discord_alert ("Database Update Error: Position " ++ toString pid ++ " - " ++ e)
            discordResp

/-- The external responses one position's processing can observe. -/
structure Oracles where
  marketResp : ApiResult (Option MarketData)
  orderResp : ApiResult (Option String)
  dbResp : ApiResult Unit
  discordResp : ApiResult ℕ
  deriving DecidableEq, Repr

/-- The body of the trigger branch of `process_position` (src/bot.py:248-280):
sizing, the zero-quantity guard, order execution, and the success/failure
follow-up.  The numeric details of the success message (src/bot.py:270-277)
are elided to its ticker. -/
def hedge_branch (ticker : String) (entry_price : ℚ) (quantity : ℤ)
    (position_id : Option ℤ) (current_price : ℚ) (o : Oracles) : List Event :=
  let contracts_to_sell := calculate_hedge_quantity entry_price quantity current_price
  if contracts_to_sell ≤ 0 then
    [Event.log "Invalid hedge quantity calculated, skipping"]
  else
    let result := execute_sell_order ticker contracts_to_sell current_price
      o.orderResp o.discordResp
    if result.1 then
      result.2 ++
        update_position_status position_id (quantity - contracts_to_sell)
          o.dbResp o.discordResp ++
        send_discord_alert ("HEDGE EXECUTED " ++ ticker) o.discordResp
    else
      result.2 ++ [Event.log ("Hedge execution failed for " ++ ticker)]

/-- `process_position` (src/bot.py:227-282): fetch the price (skip when
unavailable), compute `percent_gain`, and run the trigger branch when
`percent_gain >= 0.50`. -/
def process_position (position : Position) (o : Oracles) : List Event :=
  match get_current_price o.marketResp with
  | none => [Event.log ("Skipping " ++ position.ticker ++ " - no price data available")]
  | some current_price =>
      if (0.50 : ℚ) ≤ (current_price - position.entry_price) / position.entry_price then
        hedge_branch position.ticker position.entry_price position.quantity
          position.pos_id current_price o
      else
        [Event.log (position.ticker ++ " below 50% threshold, no action taken")]

/-- The per-position `try`/`except` of `run` (src/bot.py:300-305): a raised
error is logged and alerted, never propagated. -/
def handle_position (proc : Position → Except String (List Event))
    (discordResp : ApiResult ℕ) (position : Position) : List Event :=
  match proc position with
  | Except.ok evs => evs
  | Except.error e =>
      Event.log ("ERROR processing " ++ position.ticker) ::
        send_discord_alert ("Error processing " ++ position.ticker ++ ": " ++ e) discordResp

/-- The `for position in positions` loop of `run` (src/bot.py:299-305). -/
def run_loop (proc : Position → Except String (List Event))
    (discordResp : ApiResult ℕ) : List Position → List Event
  | [] => []
  | position :: rest =>
      handle_position proc discordResp position ++ run_loop proc discordResp rest

/-- Exit code and observable events of one bot run. -/
structure RunOutcome where
  exit_code : ℕ
  events : List Event
  deriving DecidableEq, Repr

/-- The `try` body of `run` (src/bot.py:290-307).  It is total: every
collaborator failure it can observe is already caught inside
`fetch_open_positions`, `handle_position` or `send_discord_alert`. -/
def run_body (portfolioResp : ApiResult (List PortfolioItem))
    (proc : Position → Except String (List Event)) (discordResp : ApiResult ℕ) :
    Except String (List Event) :=
  let positions := fetch_open_positions portfolioResp
  if positions.isEmpty then
    Except.ok [Event.log "No open positions to process"]
  else
    Except.ok (run_loop proc discordResp positions ++
      [Event.log "Bot execution completed successfully"])

/-- `run` (src/bot.py:284-313): the outer `except` (src/bot.py:309-313)
alerts and calls `sys.exit(1)`; a completed body returns normally, which is
exit code 0. -/
def run (portfolioResp : ApiResult (List PortfolioItem))
    (proc : Position → Except String (List Event)) (discordResp : ApiResult ℕ) : RunOutcome :=
  match run_body portfolioResp proc discordResp with
  | Except.ok evs => ⟨0, evs⟩
  | Except.error e =>
      ⟨1, send_discord_alert ("CRITICAL ERROR: Critical error in bot execution: " ++ e)
        discordResp⟩

/-! ## Theorems -/

/-- Claim C1: for every entry price `E > 0`, quantity `Q > 0` and current
price `P > 0`, `calculate_hedge_quantity E Q P` lies in the closed interval
`[0, Q-1]`; in particular it is never `≥ Q`, so at least one contract always
remains after a hedge. -/
theorem C1_hedge_quantity_in_range (E : ℚ) (Q : ℤ) (P : ℚ)
    (hE : 0 < E) (hQ : 0 < Q) (hP : 0 < P) :
    0 ≤ calculate_hedge_quantity E Q P ∧ calculate_hedge_quantity E Q P ≤ Q - 1 := by
  unfold calculate_hedge_quantity
  refine ⟨le_max_left _ _, max_le (by omega) (min_le_right _ _)⟩

/-- Witness for C1 at the spec's Scenario 1 inputs. -/
theorem C1_witness :
    0 ≤ calculate_hedge_quantity 0.50 100 0.75 ∧
      calculate_hedge_quantity 0.50 100 0.75 ≤ 100 - 1 :=
  C1_hedge_quantity_in_range 0.50 100 0.75 (by norm_num) (by norm_num) (by norm_num)

/-- Claim C2: for every `E > 0`, `Q > 0`, `P > 0`, with
`raw_sell_qty = floor (E*Q/P)`, the returned quantity satisfies
`sell_qty * P ≤ E * Q` whenever `raw_sell_qty < Q`, and equals `Q - 1`
whenever `raw_sell_qty ≥ Q`; concretely `E = 0.50`, `Q = 100`, `P = 0.75`
gives `66` (so `34` remain). -/
theorem C2_capital_conservative (E : ℚ) (Q : ℤ) (P : ℚ)
    (hE : 0 < E) (hQ : 0 < Q) (hP : 0 < P) :
    (Rat.floor (E * (Q : ℚ) / P) < Q →
      (calculate_hedge_quantity E Q P : ℚ) * P ≤ E * (Q : ℚ)) ∧
    (Q ≤ Rat.floor (E * (Q : ℚ) / P) → calculate_hedge_quantity E Q P = Q - 1) ∧
    calculate_hedge_quantity 0.50 100 0.75 = 66 ∧
    100 - calculate_hedge_quantity 0.50 100 0.75 = 34 := by
  have hfl : Rat.floor (E * (Q : ℚ) / P) = ⌊E * (Q : ℚ) / P⌋ := rat_floor_eq_int_floor _
  have hnn : (0 : ℤ) ≤ Rat.floor (E * (Q : ℚ) / P) := by
    rw [hfl]
    exact Int.floor_nonneg.mpr (by positivity)
  refine ⟨?_, ?_, ?_, ?_⟩
  · intro hraw
    have hsel : calculate_hedge_quantity E Q P = Rat.floor (E * (Q : ℚ) / P) := by
      simp only [calculate_hedge_quantity]
      omega
    rw [hsel, hfl]
    have hle : (⌊E * (Q : ℚ) / P⌋ : ℚ) ≤ E * (Q : ℚ) / P := Int.floor_le _
    calc (⌊E * (Q : ℚ) / P⌋ : ℚ) * P ≤ E * (Q : ℚ) / P * P :=
        mul_le_mul_of_nonneg_right hle (le_of_lt hP)
    _ = E * (Q : ℚ) := div_mul_cancel₀ _ (ne_of_gt hP)
  · intro hraw
    simp only [calculate_hedge_quantity]
    omega
  · norm_num [calculate_hedge_quantity, rat_floor_eq_int_floor]
  · norm_num [calculate_hedge_quantity, rat_floor_eq_int_floor]

/-- Witness for C2 at the spec's Scenario 1 inputs. -/
theorem C2_witness : calculate_hedge_quantity 0.50 100 0.75 = 66 :=
  (C2_capital_conservative 0.50 100 0.75 (by norm_num) (by norm_num) (by norm_num)).2.2.1

/-- Claim C3: with `E > 0` and an available price `P`, the hedge trigger of
`process_position` fires exactly when `(P - E)/E ≥ 0.50`, equivalently
`P ≥ 1.5·E` (boundary inclusive); for `P < 1.5·E` the position only gets the
below-threshold log line — no sizing, no order, no status update. -/
theorem C3_trigger_boundary (position : Position) (o : Oracles) (P : ℚ)
    (hE : 0 < position.entry_price)
    (hp : get_current_price o.marketResp = some P) :
    ((0.50 : ℚ) ≤ (P - position.entry_price) / position.entry_price ↔
      3/2 * position.entry_price ≤ P) ∧
    (3/2 * position.entry_price ≤ P →
      process_position position o =
        hedge_branch position.ticker position.entry_price position.quantity
          position.pos_id P o) ∧
    (P < 3/2 * position.entry_price →
      process_position position o =
        [Event.log (position.ticker ++ " below 50% threshold, no action taken")]) := by
  have key : (0.50 : ℚ) ≤ (P - position.entry_price) / position.entry_price ↔
      3/2 * position.entry_price ≤ P := by
    rw [le_div_iff₀ hE]
    constructor <;> intro h <;> linarith
  refine ⟨key, ?_, ?_⟩
  · intro h
    simp only [process_position, hp]
    rw [if_pos (key.mpr h)]
  · intro h
    simp only [process_position, hp]
    rw [if_neg fun hcon => absurd (key.mp hcon) (not_le.mpr h)]

/-- Witness for C3 at the exact boundary `P = 1.5·E` (`E = $0.50`,
`P = $0.75`): the trigger fires. -/
theorem C3_witness :
    ((0.50 : ℚ) ≤ ((75 : ℚ)/100 - 0.50) / 0.50 ↔ 3/2 * (0.50 : ℚ) ≤ (75 : ℚ)/100) ∧
    process_position ⟨"TICK", 0.50, 100, "OPEN", none⟩
        ⟨ApiResult.ok (some ⟨75⟩), ApiResult.ok (some "oid"), ApiResult.ok (), ApiResult.ok 204⟩ =
      hedge_branch "TICK" 0.50 100 none ((75 : ℚ)/100)
        ⟨ApiResult.ok (some ⟨75⟩), ApiResult.ok (some "oid"), ApiResult.ok (), ApiResult.ok 204⟩ := by
  have h := C3_trigger_boundary ⟨"TICK", 0.50, 100, "OPEN", none⟩
      ⟨ApiResult.ok (some ⟨75⟩), ApiResult.ok (some "oid"), ApiResult.ok (), ApiResult.ok 204⟩
      ((75 : ℚ)/100) (by norm_num) rfl
  exact ⟨h.1, h.2.1 (by norm_num)⟩

/-- Claim C4: a position built by `fetch_open_positions` keeps the raw
`avg_price` as `entry_price` (no cents-to-dollars normalisation), although
the same function normalises for the notional filter; `get_current_price`
returns `yes_bid / 100` (dollars).  For `avg_price ≥ 1` the entry price
equals the cents value and differs from its dollar value, and
`process_position` compares exactly those mixed-unit quantities. -/
theorem C4_entry_price_unit_mismatch (items : List PortfolioItem) (p : PortfolioItem)
    (m : MarketData) (o : Oracles)
    (hmem : p ∈ items)
    (hfilter : invested_value_dollars p ≥ MIN_INVESTMENT_TO_HEDGE)
    (hcents : 1 ≤ p.avg_price)
    (ho : o.marketResp = ApiResult.ok (some m)) :
    to_position p ∈ fetch_open_positions (ApiResult.ok items) ∧
    (to_position p).entry_price = p.avg_price ∧
    invested_value_dollars p = (p.position : ℚ) * price_in_cents p.avg_price / 100 ∧
    get_current_price (ApiResult.ok (some m)) = some (m.yes_bid / 100) ∧
    (to_position p).entry_price = price_in_cents p.avg_price ∧
    (to_position p).entry_price ≠ price_in_cents p.avg_price / 100 ∧
    process_position (to_position p) o =
      (if (0.50 : ℚ) ≤ (m.yes_bid / 100 - p.avg_price) / p.avg_price then
        hedge_branch p.ticker p.avg_price p.position none (m.yes_bid / 100) o
      else [Event.log (p.ticker ++ " below 50% threshold, no action taken")]) := by
  have hpos : (0 : ℚ) < p.avg_price := lt_of_lt_of_le one_pos hcents
  have hpc : price_in_cents p.avg_price = p.avg_price := by
    rw [price_in_cents, if_neg (not_lt.mpr hcents)]
  refine ⟨?_, rfl, rfl, rfl, ?_, ?_, ?_⟩
  · simp only [fetch_open_positions]
    exact List.mem_filterMap.mpr ⟨p, hmem, by rw [if_pos hfilter]⟩
  · rw [hpc]
    exact rfl
  · have hep : (to_position p).entry_price = p.avg_price := rfl
    rw [hep, hpc]
    intro h
    rw [eq_div_iff (by norm_num : (100 : ℚ) ≠ 0)] at h
    linarith
  · simp only [process_position, ho, get_current_price, to_position]

/-- Witness for C4: `avg_price = 50` (cents, i.e. $0.50 entry) passes the
$10 filter and is carried unnormalised, while the quote 75 becomes $0.75. -/
theorem C4_witness :
    to_position ⟨"T", 50, 100⟩ ∈ fetch_open_positions (ApiResult.ok [⟨"T", 50, 100⟩]) ∧
    (to_position (⟨"T", 50, 100⟩ : PortfolioItem)).entry_price = 50 ∧
    get_current_price (ApiResult.ok (some ⟨75⟩)) = some ((75 : ℚ) / 100) ∧
    (to_position (⟨"T", 50, 100⟩ : PortfolioItem)).entry_price ≠
      price_in_cents (50 : ℚ) / 100 := by
  have h := C4_entry_price_unit_mismatch [⟨"T", 50, 100⟩] ⟨"T", 50, 100⟩ ⟨75⟩
      ⟨ApiResult.ok (some ⟨75⟩), ApiResult.ok none, ApiResult.ok (), ApiResult.ok 204⟩
      (List.mem_singleton.mpr rfl)
      (by norm_num [invested_value_dollars, price_in_cents, MIN_INVESTMENT_TO_HEDGE])
      (by norm_num) rfl
  exact ⟨h.1, h.2.1, h.2.2.2.1, h.2.2.2.2.2.1⟩

/-- Counterexample to claim C5: when the portfolio fetch raises, the run
exits with code 0 and sends no notification — `fetch_open_positions`
swallows the exception and returns the empty list (src/bot.py:121-123), so
the fatal branch of `run` is never taken. -/
theorem C5_counterexample :
    (run (ApiResult.exn "connection refused") (fun _ => Except.ok []) (ApiResult.ok 204)).exit_code
        = 0 ∧
    (run (ApiResult.exn "connection refused") (fun _ => Except.ok []) (ApiResult.ok 204)).events
        = [Event.log "No open positions to process"] :=
  ⟨rfl, rfl⟩

/-- Claim C5 as amended: a failure of the portfolio fetch is caught inside
`fetch_open_positions`, which logs and returns the empty list; the run then
completes normally — exit code 0 and no notification — exactly like any
completed run.  Every run of the modelled failure modes exits with code 0. -/
theorem C5_amended_fetch_failure_not_fatal (portfolioResp : ApiResult (List PortfolioItem))
    (proc : Position → Except String (List Event)) (discordResp : ApiResult ℕ) :
    (run portfolioResp proc discordResp).exit_code = 0 ∧
    (∀ e, portfolioResp = ApiResult.exn e →
      fetch_open_positions portfolioResp = [] ∧
      (run portfolioResp proc discordResp).events =
        [Event.log "No open positions to process"]) := by
  constructor
  · rw [run, run_body]
    by_cases h : (fetch_open_positions portfolioResp).isEmpty <;> simp [h]
  · intro e he
    subst he
    exact ⟨rfl, rfl⟩

/-- Witness for the amended C5 at a concrete failing fetch. -/
theorem C5_amended_witness :
    (run (ApiResult.exn "boom") (fun _ => Except.ok []) (ApiResult.ok 204)).exit_code = 0 ∧
    (run (ApiResult.exn "boom") (fun _ => Except.ok []) (ApiResult.ok 204)).events =
      [Event.log "No open positions to process"] :=
  ⟨(C5_amended_fetch_failure_not_fatal (ApiResult.exn "boom") (fun _ => Except.ok [])
      (ApiResult.ok 204)).1,
    ((C5_amended_fetch_failure_not_fatal (ApiResult.exn "boom") (fun _ => Except.ok [])
      (ApiResult.ok 204)).2 "boom" rfl).2⟩

/-- Claim C7: when the price fetch yields nothing (missing quote or raised
exception), `process_position` only records the skip log line: no order
request, no database write, and the surrounding loop continues with the
next position. -/
theorem C7_price_failure_skips (position : Position) (o : Oracles)
    (h : get_current_price o.marketResp = none) :
    process_position position o =
      [Event.log ("Skipping " ++ position.ticker ++ " - no price data available")] ∧
    (∀ t q pc, Event.orderRequest t q pc ∉ process_position position o) ∧
    (∀ pid rem, Event.dbUpdate pid rem ∉ process_position position o) ∧
    (∀ proc rest, proc position = Except.ok (process_position position o) →
      run_loop proc o.discordResp (position :: rest) =
        [Event.log ("Skipping " ++ position.ticker ++ " - no price data available")] ++
          run_loop proc o.discordResp rest) := by
  have hpp : process_position position o =
      [Event.log ("Skipping " ++ position.ticker ++ " - no price data available")] := by
    simp only [process_position, h]
  refine ⟨hpp, ?_, ?_, ?_⟩
  · intro t q pc
    rw [hpp]
    simp
  · intro pid rem
    rw [hpp]
    simp
  · intro proc rest hproc
    simp only [run_loop, handle_position, hproc, hpp]

/-- Witness for C7: a market response with no quote is skipped. -/
theorem C7_witness :
    process_position ⟨"T", 1, 1, "OPEN", none⟩
        ⟨ApiResult.ok none, ApiResult.ok none, ApiResult.ok (), ApiResult.ok 204⟩ =
      [Event.log ("Skipping " ++ "T" ++ " - no price data available")] :=
  (C7_price_failure_skips ⟨"T", 1, 1, "OPEN", none⟩
    ⟨ApiResult.ok none, ApiResult.ok none, ApiResult.ok (), ApiResult.ok 204⟩ rfl).1

/-- Claim C8: a triggered position whose clamped sell quantity is not
positive is skipped before order placement — only the invalid-quantity log
is emitted; Scenario 3 (`E = 1.00`, `Q = 1`, `P = 2.00`) sizes to 0. -/
theorem C8_zero_hedge_skips (position : Position) (o : Oracles) (P : ℚ)
    (hp : get_current_price o.marketResp = some P)
    (htrig : (0.50 : ℚ) ≤ (P - position.entry_price) / position.entry_price)
    (hzero : calculate_hedge_quantity position.entry_price position.quantity P ≤ 0) :
    process_position position o = [Event.log "Invalid hedge quantity calculated, skipping"] ∧
    calculate_hedge_quantity 1 1 2 = 0 := by
  constructor
  · simp only [process_position, hp, if_pos htrig, hedge_branch]
    rw [if_pos hzero]
  · norm_num [calculate_hedge_quantity, rat_floor_eq_int_floor]

/-- Witness for C8 at Scenario 3: entry $1.00, one contract, quote 200
cents ($2.00). -/
theorem C8_witness :
    process_position ⟨"T", 1, 1, "OPEN", none⟩
        ⟨ApiResult.ok (some ⟨200⟩), ApiResult.ok none, ApiResult.ok (), ApiResult.ok 204⟩ =
      [Event.log "Invalid hedge quantity calculated, skipping"] :=
  (C8_zero_hedge_skips ⟨"T", 1, 1, "OPEN", none⟩
    ⟨ApiResult.ok (some ⟨200⟩), ApiResult.ok none, ApiResult.ok (), ApiResult.ok 204⟩
    ((200 : ℚ)/100) rfl (by norm_num)
    (by norm_num [calculate_hedge_quantity, rat_floor_eq_int_floor])).1

/-- Claim C9: with `E > 0`, a current price of exactly 0 is handled without
error: the trigger does not fire, so no sizing, no order, and no division by
the zero price ever happens; moreover any price that does fire the trigger
satisfies `P ≥ 1.5·E > 0`, so the divisor inside `calculate_hedge_quantity`
is positive whenever `process_position` reaches it. -/
theorem C9_zero_price_no_decision (position : Position) (o : Oracles) (m : MarketData)
    (hE : 0 < position.entry_price)
    (hm : o.marketResp = ApiResult.ok (some m))
    (hbid : m.yes_bid = 0) :
    process_position position o =
      [Event.log (position.ticker ++ " below 50% threshold, no action taken")] ∧
    (∀ P : ℚ, (0.50 : ℚ) ≤ (P - position.entry_price) / position.entry_price →
      3/2 * position.entry_price ≤ P ∧ 0 < P) := by
  constructor
  · simp only [process_position, get_current_price, hm, hbid]
    rw [if_neg]
    have h0 : ((0 : ℚ)/100 - position.entry_price) / position.entry_price = -1 := by
      field_simp
    rw [h0]
    norm_num
  · intro P hP
    have h := (le_div_iff₀ hE).mp hP
    constructor <;> linarith

/-- Witness for C9: a zero quote yields no action for an `E = $1` position,
and a triggering price such as `P = 2` is necessarily positive. -/
theorem C9_witness :
    process_position ⟨"T", 1, 5, "OPEN", none⟩
        ⟨ApiResult.ok (some ⟨0⟩), ApiResult.ok none, ApiResult.ok (), ApiResult.ok 204⟩ =
      [Event.log ("T" ++ " below 50% threshold, no action taken")] ∧
    (3/2 * (1 : ℚ) ≤ 2 ∧ (0 : ℚ) < 2) := by
  have h := C9_zero_price_no_decision ⟨"T", 1, 5, "OPEN", none⟩
      ⟨ApiResult.ok (some ⟨0⟩), ApiResult.ok none, ApiResult.ok (), ApiResult.ok 204⟩
      ⟨0⟩ (by norm_num) rfl rfl
  exact ⟨h.1, h.2 2 (by norm_num)⟩

/-- `send_discord_alert` always produces the post attempt followed by one of
its three log lines. -/
lemma send_discord_alert_cases (msg : String) (r : ApiResult ℕ) :
    send_discord_alert msg r = [Event.discordPost msg, Event.log "Discord notification sent"] ∨
    send_discord_alert msg r =
      [Event.discordPost msg, Event.log "Discord notification failed"] ∨
    send_discord_alert msg r =
      [Event.discordPost msg, Event.log "ERROR sending Discord alert"] := by
  rw [send_discord_alert.eq_def]
  split
  · exact Or.inl rfl
  · exact Or.inr (Or.inl rfl)
  · exact Or.inr (Or.inr rfl)

/-- The Discord post attempt is always an event of `send_discord_alert`. -/
lemma mem_send_discord_alert_self (msg : String) (r : ApiResult ℕ) :
    Event.discordPost msg ∈ send_discord_alert msg r := by
  rcases send_discord_alert_cases msg r with h | h | h <;> rw [h] <;> simp

/-- `send_discord_alert` never writes to the database. -/
lemma dbUpdate_not_mem_send_discord_alert (pid rem : ℤ) (msg : String) (r : ApiResult ℕ) :
    Event.dbUpdate pid rem ∉ send_discord_alert msg r := by
  rcases send_discord_alert_cases msg r with h | h | h <;> rw [h] <;> simp

/-- Counterexample to claim C6: a triggered hedge whose order placement
reports failure without raising (`create_order` returns no order object,
src/bot.py:180-182) produces no Discord alert at all — the Notifier is not
invoked, contradicting "for every non-success result the Notifier receives a
failure alert". -/
theorem C6_counterexample :
    process_position ⟨"KXBTC", 1, 100, "OPEN", none⟩
        ⟨ApiResult.ok (some ⟨200⟩), ApiResult.ok none, ApiResult.ok (), ApiResult.ok 204⟩ =
      [Event.orderRequest "KXBTC" 50 200,
        Event.log "Order placement failed - no order returned",
        Event.log ("Hedge execution failed for " ++ "KXBTC")] := by
  norm_num [process_position, get_current_price, hedge_branch, execute_sell_order,
    calculate_hedge_quantity, rat_floor_eq_int_floor, int_trunc]

/-- Claim C6 as amended: only an order placement that raises (a transport
error) sends the Notifier a failure alert containing the ticker and the
reason; a placement that merely reports no order back is only logged, with
no alert.  In both failure cases the Status Sink is never invoked and
exactly one order request is made (no retry); on executor success the Status
Sink update precedes the Notifier's success summary. -/
theorem C6_amended_failure_handling (position : Position) (o : Oracles) (P : ℚ)
    (hp : get_current_price o.marketResp = some P)
    (htrig : (0.50 : ℚ) ≤ (P - position.entry_price) / position.entry_price)
    (hqty : 0 < calculate_hedge_quantity position.entry_price position.quantity P) :
    (∀ e, o.orderResp = ApiResult.exn e →
      process_position position o =
        Event.orderRequest position.ticker
            (calculate_hedge_quantity position.entry_price position.quantity P)
            (int_trunc (P * 100)) ::
          (send_discord_alert ("Order Execution Error: " ++ position.ticker ++ " - " ++ e)
              o.discordResp ++
            [Event.log ("Hedge execution failed for " ++ position.ticker)]) ∧
      Event.discordPost ("Order Execution Error: " ++ position.ticker ++ " - " ++ e) ∈
        process_position position o ∧
      ∀ pid rem, Event.dbUpdate pid rem ∉ process_position position o) ∧
    (o.orderResp = ApiResult.ok none →
      process_position position o =
        [Event.orderRequest position.ticker
            (calculate_hedge_quantity position.entry_price position.quantity P)
            (int_trunc (P * 100)),
          Event.log "Order placement failed - no order returned",
          Event.log ("Hedge execution failed for " ++ position.ticker)]) ∧
    (∀ oid pid, o.orderResp = ApiResult.ok (some oid) → position.pos_id = some pid →
      o.dbResp = ApiResult.ok () →
      process_position position o =
        [Event.orderRequest position.ticker
            (calculate_hedge_quantity position.entry_price position.quantity P)
            (int_trunc (P * 100)),
          Event.log "Order placed successfully",
          Event.dbUpdate pid
            (position.quantity -
              calculate_hedge_quantity position.entry_price position.quantity P),
          Event.log "Updated position in database"] ++
          send_discord_alert ("HEDGE EXECUTED " ++ position.ticker) o.discordResp) := by
  have hq' : ¬ (calculate_hedge_quantity position.entry_price position.quantity P ≤ 0) :=
    not_le.mpr hqty
  refine ⟨?_, ?_, ?_⟩
  · intro e he
    have hpe : process_position position o =
        Event.orderRequest position.ticker
            (calculate_hedge_quantity position.entry_price position.quantity P)
            (int_trunc (P * 100)) ::
          (send_discord_alert ("Order Execution Error: " ++ position.ticker ++ " - " ++ e)
              o.discordResp ++
            [Event.log ("Hedge execution failed for " ++ position.ticker)]) := by
      simp only [process_position, hp, if_pos htrig, hedge_branch, if_neg hq',
        execute_sell_order, he]
      simp
    refine ⟨hpe, ?_, ?_⟩
    · rw [hpe]
      exact List.mem_cons_of_mem _ (List.mem_append_left _ (mem_send_discord_alert_self _ _))
    · intro pid rem hmem
      rw [hpe] at hmem
      rcases List.mem_cons.mp hmem with h | h
      · exact Event.noConfusion h
      · rcases List.mem_append.mp h with h2 | h2
        · exact dbUpdate_not_mem_send_discord_alert pid rem _ _ h2
        · simp at h2
  · intro he
    simp only [process_position, hp, if_pos htrig, hedge_branch, if_neg hq',
      execute_sell_order, he]
    simp
  · intro oid pid hord hpid hdb
    simp only [process_position, hp, if_pos htrig, hedge_branch, if_neg hq',
      execute_sell_order, hord, hpid, hdb, update_position_status]
    simp

/-- Witness for the amended C6: a raised order error for `KXBTC` reaches the
Notifier with ticker and reason. -/
theorem C6_witness :
    Event.discordPost ("Order Execution Error: " ++ "KXBTC" ++ " - " ++ "timeout") ∈
      process_position ⟨"KXBTC", 1, 100, "OPEN", none⟩
        ⟨ApiResult.ok (some ⟨200⟩), ApiResult.exn "timeout", ApiResult.ok (), ApiResult.ok 204⟩ :=
  (((C6_amended_failure_handling ⟨"KXBTC", 1, 100, "OPEN", none⟩
      ⟨ApiResult.ok (some ⟨200⟩), ApiResult.exn "timeout", ApiResult.ok (), ApiResult.ok 204⟩
      ((200 : ℚ)/100) rfl (by norm_num)
      (by norm_num [calculate_hedge_quantity, rat_floor_eq_int_floor])).1)
    "timeout" rfl).2.1

/-- Claim C10: an error raised while processing one position is caught at
the position boundary — logged and alerted — and every other position in the
list is still processed; this holds for every Notifier response, since
`send_discord_alert` swallows its own errors and always begins with the post
attempt. -/
theorem C10_position_errors_contained (proc : Position → Except String (List Event))
    (discordResp : ApiResult ℕ) (l1 l2 : List Position) (position : Position) (e : String)
    (he : proc position = Except.error e) :
    run_loop proc discordResp (l1 ++ position :: l2) =
      run_loop proc discordResp l1 ++
        (Event.log ("ERROR processing " ++ position.ticker) ::
          send_discord_alert ("Error processing " ++ position.ticker ++ ": " ++ e)
            discordResp) ++
        run_loop proc discordResp l2 ∧
    Event.discordPost ("Error processing " ++ position.ticker ++ ": " ++ e) ∈
      handle_position proc discordResp position ∧
    (∀ msg err, ∃ evs,
      send_discord_alert msg (ApiResult.exn err) = Event.discordPost msg :: evs) := by
  refine ⟨?_, ?_, fun msg err => ⟨[Event.log "ERROR sending Discord alert"], rfl⟩⟩
  · induction l1 with
    | nil => simp [run_loop, handle_position, he]
    | cons q qs ih => simp [run_loop, ih, List.append_assoc]
  · rw [handle_position, he]
    exact List.mem_cons_of_mem _ (mem_send_discord_alert_self _ _)

/-- Witness for C10: a raising processor for a single-position list. -/
theorem C10_witness :
    run_loop (fun _ => Except.error "KeyError") (ApiResult.ok 204)
        ([] ++ (⟨"T", 1, 1, "OPEN", none⟩ : Position) :: []) =
      run_loop (fun _ => Except.error "KeyError") (ApiResult.ok 204) [] ++
        (Event.log ("ERROR processing " ++ "T") ::
          send_discord_alert ("Error processing " ++ "T" ++ ": " ++ "KeyError")
            (ApiResult.ok 204)) ++
        run_loop (fun _ => Except.error "KeyError") (ApiResult.ok 204) [] :=
  (C10_position_errors_contained (fun _ => Except.error "KeyError") (ApiResult.ok 204)
    [] [] ⟨"T", 1, 1, "OPEN", none⟩ "KeyError" rfl).1

end KalshiBot
